import Mathlib

/-!
Shallow embedding of the order/product aggregation and validation core of
the `gateway` HTTP service (`src/gateway/gateway/service.py`).

The two backend RPC services (product catalog, order ledger) are external
collaborators; they are modelled as function parameters.  Outbound calls
that the claims count are recorded explicitly as lists of call arguments.
-/

namespace Gateway

/-- JSON values, as far as the gateway payloads need them. -/
inductive Json where
  | str (s : String)
  | num (n : Int)
  | obj (fields : List (String × Json))
  | arr (elems : List Json)

/-- Look up a field of a JSON object field list (first match, as in JSON
object access). -/
def lookupField (fields : List (String × Json)) (key : String) : Option Json :=
  (fields.find? (fun f => f.1 = key)).map (fun f => f.2)

/-- A product as held by the gateway (transient copy of a catalog record),
with the fields of the product payload of `ProductSchema`. -/
structure Product where
  id : String
  title : String
  passenger_capacity : Int
  maximum_speed : Int
  in_stock : Int
deriving Repr, DecidableEq

/-- One entry of an order's `order_details`: the line item.  `product` and
`image` are absent on input and attached by enrichment. -/
structure OrderDetail where
  product_id : String
  price : String
  quantity : Int
  product : Option Product := none
  image : Option String := none
deriving Repr, DecidableEq

/-- An order as returned by the order ledger. -/
structure Order where
  id : Int
  order_details : List OrderDetail
deriving Repr, DecidableEq

/-- The parsed body of a create-order request: `{"order_details": [...]}`. -/
structure OrderPayload where
  order_details : List OrderDetail
deriving Repr, DecidableEq

/-- `_get_product_ids_from_order`: the product ids of the `order_details`
entries, in line-item order. -/
def get_product_ids_from_order (order_details : List OrderDetail) : List String :=
  order_details.map (fun order_detail => order_detail.product_id)

/-- `_get_product_ids_from_orders`: concatenation, in order, of each
order's product-id list (the Python loop extends one accumulator list). -/
def get_product_ids_from_orders (orders : List Order) : List String :=
  orders.flatMap (fun order => get_product_ids_from_order order.order_details)

/-- The Python dict comprehension `{prod['id']: prod for prod in products}`:
a map from product id to product in which a later product with the same id
overwrites an earlier one. -/
def buildProductMap (products : List Product) : String → Option Product :=
  products.foldl
    (fun acc prod => fun pid => if pid = prod.id then some prod else acc pid)
    (fun _ => none)

/-- The body of the enrichment loop of `_fill_order_details_with_product`
over the `order_details` list: each item gets `item['product']` set from
the product map and `item['image']` set to `'{}/{}.jpg'.format(image_root,
product_id)`.  A product id absent from the map raises `KeyError` (an
unhandled server fault), modelled as `Except.error` carrying that id; the
loop stops at the first such item. -/
def fill_details (image_root : String) (product_map : String → Option Product) :
    List OrderDetail → Except String (List OrderDetail)
  | [] => .ok []
  | item :: rest =>
    match product_map item.product_id with
    | none => .error item.product_id
    | some prod =>
      match fill_details image_root product_map rest with
      | .error e => .error e
      | .ok rest' =>
        .ok ({ item with
                product := some prod,
                image := some (image_root ++ "/" ++ item.product_id ++ ".jpg") } :: rest')

/-- `_fill_order_details_with_product`: enrich every line item of `order`
in place and return the order. -/
def fill_order_details_with_product (image_root : String)
    (product_map : String → Option Product) (order : Order) : Except String Order :=
  match fill_details image_root product_map order.order_details with
  | .error e => .error e
  | .ok details => .ok { order with order_details := details }

/-- The loop of `_get_all_orders` over the fetched orders: each order is
enriched (`order.update(...)` with the enriched copy of itself keeps the
list order). -/
def fill_orders (image_root : String) (product_map : String → Option Product) :
    List Order → Except String (List Order)
  | [] => .ok []
  | order :: rest =>
    match fill_order_details_with_product image_root product_map order with
    | .error e => .error e
    | .ok order' =>
      match fill_orders image_root product_map rest with
      | .error e => .error e
      | .ok rest' => .ok (order' :: rest')

/-- `_get_all_orders`, after the ledger has returned `orders`: one
unconditional `products_rpc.list` call whose argument is the collected
product-id list, then enrichment of every order.  The second component
records the arguments of the catalog `list` calls made. -/
def get_all_orders (image_root : String) (products_list : List String → List Product)
    (orders : List Order) : Except String (List Order) × List (List String) :=
  let order_product_ids := get_product_ids_from_orders orders
  let product_map := buildProductMap (products_list order_product_ids)
  (fill_orders image_root product_map orders, [order_product_ids])

/-- The validation loop of `_create_order`: walk the line items in order
and return the product id of the first one whose id is not among the valid
ids. -/
def firstMissingProductId (valid_product_ids : List String) :
    List OrderDetail → Option String
  | [] => none
  | item :: rest =>
    if item.product_id ∈ valid_product_ids then
      firstMissingProductId valid_product_ids rest
    else some item.product_id

/-- The error raised by `_create_order`. -/
inductive CreateOrderError where
  | productNotFound (product_id : String)
deriving Repr, DecidableEq

/-- The outcome of `_create_order`, with the outbound calls recorded:
`catalog_calls` are the arguments of `products_rpc.list` calls,
`ledger_calls` the arguments of `orders_rpc.create_order` calls. -/
structure CreateOrderResult where
  result : Except CreateOrderError Order
  catalog_calls : List (List String)
  ledger_calls : List (List OrderDetail)
deriving Repr

/-- `_create_order`: collect the payload's product ids, issue one batched
`products_rpc.list` call, check every line item's id against the set of
ids actually returned (raising `ProductNotFound` at the first miss), and
only then call `orders_rpc.create_order` with the serialized line items
(`CreateOrderSchema().dump` reproduces the `order_details` entries). -/
def create_order_impl (products_list : List String → List Product)
    (orders_create : List OrderDetail → Order) (order_data : OrderPayload) :
    CreateOrderResult :=
  let order_product_ids := get_product_ids_from_order order_data.order_details
  let valid_product_ids := (products_list order_product_ids).map (fun prod => prod.id)
  match firstMissingProductId valid_product_ids order_data.order_details with
  | some pid =>
    { result := .error (.productNotFound pid)
      catalog_calls := [order_product_ids]
      ledger_calls := [] }
  | none =>
    let serialized_details := order_data.order_details
    { result := .ok (orders_create serialized_details)
      catalog_calls := [order_product_ids]
      ledger_calls := [serialized_details] }

/-- The outcome classes of `Schema(strict=True).loads`: `valueError` for a
body that is not parseable JSON, `validationError` for valid JSON that
violates the schema. -/
inductive LoadsError where
  | valueError
  | validationError
deriving Repr, DecidableEq

/-- An inbound HTTP request body: either raw text that is not parseable as
JSON, or a parsed JSON value. -/
inductive RequestBody where
  | malformed (raw : String)
  | wellFormed (v : Json)

/-- Modelled from the spec: `ProductSchema` (gateway/schemas.py, not under
src/).  `loads` fails with `ValueError` on unparseable input and with
`ValidationError` when a required field (`id`, `title`,
`passenger_capacity`, `maximum_speed`, `in_stock`) is missing or has the
wrong type, per the inbound product-creation payload shape of the spec. -/
def productSchema_loads : RequestBody → Except LoadsError Product
  | .malformed _ => .error .valueError
  | .wellFormed v =>
    match v with
    | .obj fields =>
      match lookupField fields "id", lookupField fields "title",
          lookupField fields "passenger_capacity",
          lookupField fields "maximum_speed", lookupField fields "in_stock" with
      | some (.str id), some (.str title), some (.num capacity),
          some (.num speed), some (.num stock) =>
        .ok { id := id, title := title, passenger_capacity := capacity,
              maximum_speed := speed, in_stock := stock }
      | _, _, _, _, _ => .error .validationError
    | _ => .error .validationError

/-- Modelled from the spec: one entry of the `order_details` array of the
create-order payload, `{"product_id": string, "price": string,
"quantity": integer}`; anything else is a schema violation. -/
def orderDetailOfJson : Json → Option OrderDetail
  | .obj fields =>
    match lookupField fields "product_id", lookupField fields "price",
        lookupField fields "quantity" with
    | some (.str pid), some (.str price), some (.num quantity) =>
      some { product_id := pid, price := price, quantity := quantity }
    | _, _, _ => none
  | _ => none

/-- Modelled from the spec: `CreateOrderSchema` (gateway/schemas.py, not
under src/).  `loads` fails with `ValueError` on unparseable input and
with `ValidationError` unless the body is an object whose `order_details`
field is an array of well-shaped line items. -/
def createOrderSchema_loads : RequestBody → Except LoadsError OrderPayload
  | .malformed _ => .error .valueError
  | .wellFormed v =>
    match v with
    | .obj fields =>
      match lookupField fields "order_details" with
      | some (.arr items) =>
        match items.mapM orderDetailOfJson with
        | some details => .ok { order_details := details }
        | none => .error .validationError
      | _ => .error .validationError
    | _ => .error .validationError

/-- The domain errors an endpoint can raise to the HTTP layer. -/
inductive GatewayError where
  | badRequest (msg : String)
  | validationError
  | productNotFound (msg : String)
  | orderNotFound (msg : String)
deriving Repr, DecidableEq

/-- The `expected_exceptions` of the `create_product` entrypoint:
`(ValidationError, BadRequest)` — these surface as client errors rather
than server faults. -/
def create_product_expected_exceptions : GatewayError → Bool
  | .validationError => true
  | .badRequest _ => true
  | _ => false

/-- The `expected_exceptions` of the `create_order` entrypoint:
`(ValidationError, ProductNotFound, BadRequest)`. -/
def create_order_expected_exceptions : GatewayError → Bool
  | .validationError => true
  | .productNotFound _ => true
  | .badRequest _ => true
  | _ => false

/-- `create_product`: load the body through `ProductSchema(strict=True)`;
a `ValueError` (unparseable JSON) is caught and re-raised as `BadRequest`,
a `ValidationError` propagates; on success `products_rpc.create` is called
with the product data and the response is `{"id": <product id>}`.  The
second component records the arguments of the catalog `create` calls. -/
def create_product (request_body : RequestBody) :
    Except GatewayError Json × List Product :=
  match productSchema_loads request_body with
  | .error .valueError => (.error (.badRequest "Invalid json"), [])
  | .error .validationError => (.error .validationError, [])
  | .ok product_data =>
    (.ok (.obj [("id", .str product_data.id)]), [product_data])

/-- `create_order` (the HTTP entrypoint): load the body through
`CreateOrderSchema(strict=True)` with the same `ValueError → BadRequest`
translation, then run `_create_order`, whose `ProductNotFound` (carrying
the message `"Product Id <id>"`) propagates; on success the response is
`{"id": <order id>}`. -/
def create_order (products_list : List String → List Product)
    (orders_create : List OrderDetail → Order) (request_body : RequestBody) :
    Except GatewayError Json :=
  match createOrderSchema_loads request_body with
  | .error .valueError => .error (.badRequest "Invalid json")
  | .error .validationError => .error .validationError
  | .ok order_data =>
    match (create_order_impl products_list orders_create order_data).result with
    | .error (.productNotFound pid) => .error (.productNotFound ("Product Id " ++ pid))
    | .ok order => .ok (.obj [("id", .num order.id)])

/-- Modelled from the spec: serialization through `ProductSchema().dumps`
(gateway/schemas.py, not under src/), producing the full product object of
the get-product response shape. -/
def productSchema_dumps (product : Product) : Json :=
  .obj [("id", .str product.id), ("title", .str product.title),
        ("passenger_capacity", .num product.passenger_capacity),
        ("maximum_speed", .num product.maximum_speed),
        ("in_stock", .num product.in_stock)]

/-- `get_product`: fetch the product from the catalog and return its
`ProductSchema` serialization as the response body. -/
def get_product (products_get : String → Product) (product_id : String) : Json :=
  productSchema_dumps (products_get product_id)

/-- `remove_product`: `products_rpc.delete` returns the deleted product,
and the response body is its `ProductSchema` serialization — the same
serializer as `get_product` uses. -/
def remove_product (products_delete : String → Product) (product_id : String) : Json :=
  productSchema_dumps (products_delete product_id)

/-- The top-level field names of a JSON object. -/
def jsonObjKeys : Json → List String
  | .obj fields => fields.map (fun f => f.1)
  | _ => []

/-! ### Helper lemmas -/

theorem firstMissing_eq_none_iff (valid_product_ids : List String)
    (details : List OrderDetail) :
    firstMissingProductId valid_product_ids details = none ↔
      ∀ item ∈ details, item.product_id ∈ valid_product_ids := by
  induction details with
  | nil => simp [firstMissingProductId]
  | cons item rest ih =>
    by_cases h : item.product_id ∈ valid_product_ids
    · simp [firstMissingProductId, h, ih]
    · simp [firstMissingProductId, h]

theorem firstMissing_append (valid_product_ids : List String)
    (l1 l2 : List OrderDetail) (item : OrderDetail)
    (h1 : ∀ j ∈ l1, j.product_id ∈ valid_product_ids)
    (h2 : item.product_id ∉ valid_product_ids) :
    firstMissingProductId valid_product_ids (l1 ++ item :: l2) =
      some item.product_id := by
  induction l1 with
  | nil => simp [firstMissingProductId, h2]
  | cons j rest ih =>
    have hj : j.product_id ∈ valid_product_ids := h1 j (by simp)
    simpa [firstMissingProductId, hj] using
      ih (fun x hx => h1 x (by simp [hx]))

/-! ### C1 -/

/-- C1: for every order-creation payload, `_create_order`'s validation
succeeds (and the ledger is called with the line items) when every line
item's product id is among the ids returned by the batched catalog lookup;
otherwise it fails with `ProductNotFound` carrying the id of the first
line item, in original line-item order, whose product id is absent from
the returned set. -/
theorem create_order_validation_correct
    (products_list : List String → List Product)
    (orders_create : List OrderDetail → Order) (order_data : OrderPayload)
    (returned_ids : List String)
    (hret : returned_ids =
      (products_list (get_product_ids_from_order order_data.order_details)).map
        Product.id) :
    ((∀ item ∈ order_data.order_details, item.product_id ∈ returned_ids) →
      (create_order_impl products_list orders_create order_data).result =
        .ok (orders_create order_data.order_details)) ∧
    (∀ (l1 l2 : List OrderDetail) (item : OrderDetail),
      order_data.order_details = l1 ++ item :: l2 →
      (∀ j ∈ l1, j.product_id ∈ returned_ids) →
      item.product_id ∉ returned_ids →
      (create_order_impl products_list orders_create order_data).result =
        .error (.productNotFound item.product_id)) := by
  subst hret
  constructor
  · intro hall
    have hnone : firstMissingProductId
        ((products_list (get_product_ids_from_order order_data.order_details)).map
          Product.id) order_data.order_details = none :=
      (firstMissing_eq_none_iff _ _).mpr hall
    simp [create_order_impl, hnone]
  · intro l1 l2 item hsplit h1 h2
    have hsome : firstMissingProductId
        ((products_list (get_product_ids_from_order order_data.order_details)).map
          Product.id) order_data.order_details = some item.product_id := by
      generalize (products_list
          (get_product_ids_from_order order_data.order_details)).map Product.id = v
        at h1 h2 ⊢
      rw [hsplit]
      exact firstMissing_append v l1 l2 item h1 h2
    simp [create_order_impl, hsome]

/-- Witness for C1: the payload `[a, ghost, b]` against a catalog that only
returns product `a` fails with `ProductNotFound "ghost"`, the first line
item whose id is missing; the payload `[a]` succeeds. -/
theorem create_order_validation_correct_witness :
    (create_order_impl (fun _ => [⟨"a", "T", 1, 2, 3⟩])
        (fun details => ⟨7, details⟩)
        ⟨[⟨"a", "1", 1, none, none⟩, ⟨"ghost", "2", 1, none, none⟩,
          ⟨"b", "3", 1, none, none⟩]⟩).result =
      .error (.productNotFound "ghost") ∧
    (create_order_impl (fun _ => [⟨"a", "T", 1, 2, 3⟩])
        (fun details => ⟨7, details⟩)
        ⟨[⟨"a", "1", 1, none, none⟩]⟩).result =
      .ok ⟨7, [⟨"a", "1", 1, none, none⟩]⟩ := by
  constructor
  · exact (create_order_validation_correct (fun _ => [⟨"a", "T", 1, 2, 3⟩])
      (fun details => ⟨7, details⟩)
      ⟨[⟨"a", "1", 1, none, none⟩, ⟨"ghost", "2", 1, none, none⟩,
        ⟨"b", "3", 1, none, none⟩]⟩ ["a"] rfl).2
      [⟨"a", "1", 1, none, none⟩] [⟨"b", "3", 1, none, none⟩]
      ⟨"ghost", "2", 1, none, none⟩ rfl (by decide) (by decide)
  · exact (create_order_validation_correct (fun _ => [⟨"a", "T", 1, 2, 3⟩])
      (fun details => ⟨7, details⟩)
      ⟨[⟨"a", "1", 1, none, none⟩]⟩ ["a"] rfl).1 (by decide)

/-! ### C4 -/

/-- C4: whenever some line item's product id is not among the ids returned
by the catalog lookup, `_create_order` fails with `ProductNotFound` and
`orders_rpc.create_order` is never invoked. -/
theorem create_order_failure_skips_ledger
    (products_list : List String → List Product)
    (orders_create : List OrderDetail → Order) (order_data : OrderPayload)
    (item : OrderDetail) (hmem : item ∈ order_data.order_details)
    (hmiss : item.product_id ∉
      (products_list (get_product_ids_from_order order_data.order_details)).map
        Product.id) :
    (∃ pid, (create_order_impl products_list orders_create order_data).result =
      .error (.productNotFound pid)) ∧
    (create_order_impl products_list orders_create order_data).ledger_calls = [] := by
  have hne : firstMissingProductId
      ((products_list (get_product_ids_from_order order_data.order_details)).map
        Product.id) order_data.order_details ≠ none := by
    intro hnone
    exact hmiss ((firstMissing_eq_none_iff _ _).mp hnone item hmem)
  obtain ⟨pid, hsome⟩ := Option.ne_none_iff_exists'.mp hne
  exact ⟨⟨pid, by simp [create_order_impl, hsome]⟩, by simp [create_order_impl, hsome]⟩

/-- Witness for C4: a payload referencing the nonexistent `"ghost"` fails
with `ProductNotFound` and makes no ledger call. -/
theorem create_order_failure_skips_ledger_witness :
    (⟨"ghost", "2", 1, none, none⟩ : OrderDetail) ∈
      [(⟨"ghost", "2", 1, none, none⟩ : OrderDetail)] ∧
    (∃ pid, (create_order_impl (fun _ => []) (fun details => ⟨7, details⟩)
      ⟨[⟨"ghost", "2", 1, none, none⟩]⟩).result = .error (.productNotFound pid)) ∧
    (create_order_impl (fun _ => []) (fun details => ⟨7, details⟩)
      ⟨[⟨"ghost", "2", 1, none, none⟩]⟩).ledger_calls = [] := by
  refine ⟨by decide, ?_⟩
  exact create_order_failure_skips_ledger (fun _ => []) (fun details => ⟨7, details⟩)
    ⟨[⟨"ghost", "2", 1, none, none⟩]⟩ ⟨"ghost", "2", 1, none, none⟩
    (by decide) (by decide)

/-! ### C2 -/

/-- Counterexample for C2: a payload whose two line items both reference
product id `"p1"` makes `_create_order` call the catalog with the argument
`["p1", "p1"]`, which contains a duplicate — the lookup argument is not
deduplicated. -/
theorem catalog_call_not_deduplicated :
    (create_order_impl (fun _ => []) (fun details => ⟨0, details⟩)
      ⟨[⟨"p1", "1", 1, none, none⟩, ⟨"p1", "2", 1, none, none⟩]⟩).catalog_calls =
      [["p1", "p1"]] ∧
    ¬ (["p1", "p1"] : List String).Nodup := by
  exact ⟨by decide, by decide⟩

/-- C2 (amended): the argument of the single batched catalog lookup is the
list of product ids of all line items of all orders, in original line-item
order — it references exactly the product ids occurring in the line items,
but duplicates are kept (deduplication only happens later, when the
response is keyed into a set or map). -/
theorem catalog_call_argument
    (products_list : List String → List Product)
    (orders_create : List OrderDetail → Order) (order_data : OrderPayload)
    (image_root : String) (orders : List Order) :
    (create_order_impl products_list orders_create order_data).catalog_calls =
      [order_data.order_details.map OrderDetail.product_id] ∧
    (get_all_orders image_root products_list orders).2 =
      [orders.flatMap (fun order => order.order_details.map OrderDetail.product_id)] := by
  constructor
  · simp only [create_order_impl]
    split <;> simp [get_product_ids_from_order]
  · simp [get_all_orders, get_product_ids_from_orders, get_product_ids_from_order]

/-! ### C3 -/

theorem fill_orders_of_empty_details (image_root : String)
    (product_map : String → Option Product) (orders : List Order)
    (h : ∀ order ∈ orders, order.order_details = []) :
    fill_orders image_root product_map orders = .ok orders := by
  induction orders with
  | nil => rfl
  | cons o rest ih =>
    obtain ⟨oid, odetails⟩ := o
    have ho : odetails = [] := h ⟨oid, odetails⟩ (by simp)
    subst ho
    simp [fill_orders, fill_order_details_with_product, fill_details,
      ih (fun x hx => h x (by simp [hx]))]

theorem order_details_empty_of_no_ids (orders : List Order)
    (h : get_product_ids_from_orders orders = []) :
    ∀ order ∈ orders, order.order_details = [] := by
  induction orders with
  | nil => simp
  | cons o rest ih =>
    simp [get_product_ids_from_orders, get_product_ids_from_order] at h ⊢
    exact h

/-- Counterexample for C3: enriching the empty list of orders still issues
a catalog `list` call (with the empty id list) — the recorded call list is
`[[]]`, not `[]`, so "no catalog call at all" is false. -/
theorem empty_enrichment_still_calls_catalog :
    (get_all_orders "root" (fun _ => []) ([] : List Order)).2 = [[]] ∧
    ([[]] : List (List String)) ≠ [] := by
  exact ⟨rfl, by decide⟩

/-- C3 (amended): if the orders reference no product ids at all, enrichment
still issues exactly one catalog `list` call, with the empty id list, and
returns the orders unchanged. -/
theorem get_all_orders_no_ids_unchanged (image_root : String)
    (products_list : List String → List Product) (orders : List Order)
    (h : get_product_ids_from_orders orders = []) :
    (get_all_orders image_root products_list orders).1 = .ok orders ∧
    (get_all_orders image_root products_list orders).2 = [[]] := by
  refine ⟨?_, by simp [get_all_orders, h]⟩
  simp only [get_all_orders]
  exact fill_orders_of_empty_details _ _ _ (order_details_empty_of_no_ids orders h)

/-- Witness for C3 (amended): two orders with no line items pass through
enrichment unchanged, with one empty-argument catalog call. -/
theorem get_all_orders_no_ids_unchanged_witness :
    get_product_ids_from_orders [⟨1, []⟩, ⟨2, []⟩] = [] ∧
    (get_all_orders "root" (fun _ => []) [⟨1, []⟩, ⟨2, []⟩]).1 =
      .ok [⟨1, []⟩, ⟨2, []⟩] ∧
    (get_all_orders "root" (fun _ => []) [⟨1, []⟩, ⟨2, []⟩]).2 = [[]] := by
  refine ⟨by decide, ?_⟩
  exact get_all_orders_no_ids_unchanged "root" (fun _ => []) [⟨1, []⟩, ⟨2, []⟩]
    (by decide)

/-! ### C5 -/

/-- What one successful pass of the enrichment loop does to each line
item: the pre-existing fields are untouched, `product` is set to the map's
entry and `image` to the derived URL. -/
def EnrichedItem (image_root : String) (product_map : String → Option Product)
    (item item' : OrderDetail) : Prop :=
  item'.product_id = item.product_id ∧ item'.price = item.price ∧
  item'.quantity = item.quantity ∧
  item'.product = product_map item.product_id ∧
  item'.image = some (image_root ++ "/" ++ item.product_id ++ ".jpg")

theorem fill_details_frame (image_root : String)
    (product_map : String → Option Product) (details details' : List OrderDetail)
    (h : fill_details image_root product_map details = .ok details') :
    List.Forall₂ (EnrichedItem image_root product_map) details details' := by
  induction details generalizing details' with
  | nil =>
    simp [fill_details] at h
    subst h
    exact List.Forall₂.nil
  | cons item rest ih =>
    simp only [fill_details] at h
    cases hpm : product_map item.product_id with
    | none => rw [hpm] at h; exact Except.noConfusion h
    | some prod =>
      rw [hpm] at h
      cases hrest : fill_details image_root product_map rest with
      | error e => rw [hrest] at h; exact Except.noConfusion h
      | ok rest' =>
        rw [hrest] at h
        injection h with h'
        subst h'
        refine List.Forall₂.cons ?_ (ih rest' hrest)
        exact ⟨rfl, rfl, rfl, by rw [hpm], rfl⟩

theorem fill_orders_frame (image_root : String)
    (product_map : String → Option Product) (orders orders' : List Order)
    (h : fill_orders image_root product_map orders = .ok orders') :
    List.Forall₂ (fun o o' => o'.id = o.id ∧
        List.Forall₂ (EnrichedItem image_root product_map)
          o.order_details o'.order_details)
      orders orders' := by
  induction orders generalizing orders' with
  | nil =>
    simp [fill_orders] at h
    subst h
    exact List.Forall₂.nil
  | cons o rest ih =>
    simp only [fill_orders] at h
    cases ho : fill_order_details_with_product image_root product_map o with
    | error e => rw [ho] at h; exact Except.noConfusion h
    | ok o' =>
      rw [ho] at h
      cases hrest : fill_orders image_root product_map rest with
      | error e => rw [hrest] at h; exact Except.noConfusion h
      | ok rest' =>
        rw [hrest] at h
        injection h with h'
        subst h'
        refine List.Forall₂.cons ?_ (ih rest' hrest)
        simp only [fill_order_details_with_product] at ho
        cases hd : fill_details image_root product_map o.order_details with
        | error e => rw [hd] at ho; exact Except.noConfusion ho
        | ok details' =>
          rw [hd] at ho
          injection ho with ho'
          subst ho'
          exact ⟨rfl, fill_details_frame _ _ _ _ hd⟩

/-- C5: when `_get_all_orders`' enrichment succeeds, the orders and each
order's line items keep their count and order, every pre-existing field
(order id, `product_id`, `price`, `quantity`) is unchanged, and the only
change is that each line item gains its `product` and `image` fields. -/
theorem enrichment_preserves_frame (image_root : String)
    (products_list : List String → List Product) (orders orders' : List Order)
    (h : (get_all_orders image_root products_list orders).1 = .ok orders') :
    List.Forall₂ (fun o o' => o'.id = o.id ∧
        List.Forall₂
          (EnrichedItem image_root
            (buildProductMap (products_list (get_product_ids_from_orders orders))))
          o.order_details o'.order_details)
      orders orders' := by
  simp only [get_all_orders] at h
  exact fill_orders_frame _ _ _ _ h

/-- Witness for C5: a concrete one-order, one-line-item enrichment keeps
the pre-existing fields and only adds `product` and `image`. -/
theorem enrichment_preserves_frame_witness :
    List.Forall₂ (fun o o' => Order.id o' = Order.id o ∧
        List.Forall₂
          (EnrichedItem "root"
            (buildProductMap ((fun ids => ids.map (fun i => ⟨i, "T", 1, 2, 3⟩))
              (get_product_ids_from_orders [⟨1, [⟨"a", "9.99", 2, none, none⟩]⟩]))))
          o.order_details o'.order_details)
      [⟨1, [⟨"a", "9.99", 2, none, none⟩]⟩]
      [⟨1, [⟨"a", "9.99", 2, some ⟨"a", "T", 1, 2, 3⟩, some "root/a.jpg"⟩]⟩] :=
  enrichment_preserves_frame "root" (fun ids => ids.map (fun i => ⟨i, "T", 1, 2, 3⟩))
    [⟨1, [⟨"a", "9.99", 2, none, none⟩]⟩]
    [⟨1, [⟨"a", "9.99", 2, some ⟨"a", "T", 1, 2, 3⟩, some "root/a.jpg"⟩]⟩] rfl

/-! ### C6 -/

theorem fill_details_isOk_iff (image_root : String)
    (product_map : String → Option Product) (details : List OrderDetail) :
    (∃ details', fill_details image_root product_map details = .ok details') ↔
      ∀ item ∈ details, (product_map item.product_id).isSome := by
  induction details with
  | nil => simp [fill_details]
  | cons item rest ih =>
    simp only [fill_details]
    cases hpm : product_map item.product_id with
    | none =>
      simp only [hpm]
      constructor
      · rintro ⟨d', hd⟩
        exact absurd hd (by simp)
      · intro hall
        have := hall item (by simp)
        rw [hpm] at this
        exact absurd this (by simp)
    | some prod =>
      cases hrest : fill_details image_root product_map rest with
      | error e =>
        constructor
        · rintro ⟨d', hd⟩
          exact absurd hd (by simp)
        · intro hall
          obtain ⟨d', hd⟩ := ih.mpr (fun x hx => hall x (by simp [hx]))
          rw [hrest] at hd
          exact Except.noConfusion hd
      | ok rest' =>
        constructor
        · intro _ x hx
          rcases List.mem_cons.mp hx with rfl | hx
          · rw [hpm]; rfl
          · exact (ih.mp ⟨rest', hrest⟩) x hx
        · intro _
          exact ⟨_, rfl⟩

theorem fill_details_sets_fields (image_root : String)
    (product_map : String → Option Product) (details details' : List OrderDetail)
    (h : fill_details image_root product_map details = .ok details') :
    ∀ item' ∈ details', item'.product.isSome ∧ item'.image.isSome := by
  induction details generalizing details' with
  | nil =>
    simp [fill_details] at h
    subst h
    simp
  | cons item rest ih =>
    simp only [fill_details] at h
    cases hpm : product_map item.product_id with
    | none => rw [hpm] at h; exact Except.noConfusion h
    | some prod =>
      rw [hpm] at h
      cases hrest : fill_details image_root product_map rest with
      | error e => rw [hrest] at h; exact Except.noConfusion h
      | ok rest' =>
        rw [hrest] at h
        injection h with h'
        subst h'
        intro item' hmem
        rcases List.mem_cons.mp hmem with rfl | hmem
        · exact ⟨rfl, rfl⟩
        · exact ih rest' hrest item' hmem

/-- C6: during enrichment, a line item whose product id is absent from the
product map makes the whole `_fill_order_details_with_product` call fail
hard (the `KeyError`, an unhandled server fault); when every referenced id
is a key of the map this branch is unreachable, the call succeeds, and no
line item's `product` or `image` is omitted or left null. -/
theorem enrichment_missing_key_fails_hard (image_root : String)
    (product_map : String → Option Product) (order : Order) :
    ((∃ item ∈ order.order_details, product_map item.product_id = none) →
      ∃ pid, fill_order_details_with_product image_root product_map order =
        .error pid) ∧
    ((∀ item ∈ order.order_details, (product_map item.product_id).isSome) →
      ∃ order', fill_order_details_with_product image_root product_map order =
          .ok order' ∧
        ∀ item' ∈ order'.order_details,
          item'.product.isSome ∧ item'.image.isSome) := by
  constructor
  · rintro ⟨item, hmem, hnone⟩
    cases hd : fill_details image_root product_map order.order_details with
    | error pid => exact ⟨pid, by simp [fill_order_details_with_product, hd]⟩
    | ok details' =>
      exfalso
      have hall := (fill_details_isOk_iff image_root product_map
        order.order_details).mp ⟨details', hd⟩
      have hs := hall item hmem
      rw [hnone] at hs
      exact absurd hs (by simp)
  · intro hall
    obtain ⟨details', hd⟩ := (fill_details_isOk_iff image_root product_map
      order.order_details).mpr hall
    exact ⟨{ order with order_details := details' },
      by simp [fill_order_details_with_product, hd],
      fill_details_sets_fields _ _ _ _ hd⟩

/-- Witness for C6: with an empty product map the order referencing
`"ghost"` fails hard; with `"a"` in the map the same-shaped order
succeeds with `product` and `image` populated. -/
theorem enrichment_missing_key_fails_hard_witness :
    (∃ pid, fill_order_details_with_product "root" (buildProductMap [])
      ⟨1, [⟨"ghost", "1", 1, none, none⟩]⟩ = .error pid) ∧
    (∃ order', fill_order_details_with_product "root"
        (buildProductMap [⟨"a", "T", 1, 2, 3⟩])
        ⟨1, [⟨"a", "1", 1, none, none⟩]⟩ = .ok order' ∧
      ∀ item' ∈ order'.order_details,
        item'.product.isSome ∧ item'.image.isSome) := by
  constructor
  · exact (enrichment_missing_key_fails_hard "root" (buildProductMap [])
      ⟨1, [⟨"ghost", "1", 1, none, none⟩]⟩).1
      ⟨⟨"ghost", "1", 1, none, none⟩, by decide, rfl⟩
  · exact (enrichment_missing_key_fails_hard "root"
      (buildProductMap [⟨"a", "T", 1, 2, 3⟩])
      ⟨1, [⟨"a", "1", 1, none, none⟩]⟩).2 (by decide)

/-! ### C7 -/

/-- Counterexample for C7: the enriched image string for image root
`"root"` and product id `"p"` is `"root/p.jpg"`, which is not the plain
concatenation `"root" ++ "p" ++ ".jpg"` — a `"/"` separator is inserted
between the image root and the product id. -/
theorem image_not_plain_concat :
    fill_details "root" (buildProductMap [⟨"p", "T", 1, 2, 3⟩])
        [⟨"p", "9.99", 2, none, none⟩] =
      .ok [⟨"p", "9.99", 2, some ⟨"p", "T", 1, 2, 3⟩, some "root/p.jpg"⟩] ∧
    some "root/p.jpg" ≠ some ("root" ++ "p" ++ ".jpg") := by
  exact ⟨rfl, by decide⟩

/-- C7 (amended): every enriched line item's `image` field is the image
root, a `"/"` separator, the line item's product id, and the fixed suffix
`".jpg"` concatenated; in particular it ends with `<product id>.jpg`. -/
theorem enriched_image_url (image_root : String)
    (product_map : String → Option Product) (details details' : List OrderDetail)
    (h : fill_details image_root product_map details = .ok details') :
    List.Forall₂ (fun item item' =>
        item'.image = some (image_root ++ "/" ++ item.product_id ++ ".jpg") ∧
        ∃ s, item'.image = some (s ++ (item.product_id ++ ".jpg")))
      details details' := by
  refine List.Forall₂.imp ?_ (fill_details_frame image_root product_map details details' h)
  intro item item' hitem
  refine ⟨hitem.2.2.2.2, image_root ++ "/", ?_⟩
  rw [hitem.2.2.2.2]
  simp [String.append_assoc]

/-- Witness for C7 (amended): image root `"root"` and product id `"p1"`
give the image `"root/p1.jpg"`, ending in `"p1.jpg"`. -/
theorem enriched_image_url_witness :
    List.Forall₂ (fun (item item' : OrderDetail) =>
        item'.image = some ("root" ++ "/" ++ item.product_id ++ ".jpg") ∧
        ∃ s, item'.image = some (s ++ (item.product_id ++ ".jpg")))
      [⟨"p1", "9.99", 2, none, none⟩]
      [⟨"p1", "9.99", 2, some ⟨"p1", "T", 1, 2, 3⟩, some "root/p1.jpg"⟩] :=
  enriched_image_url "root" (buildProductMap [⟨"p1", "T", 1, 2, 3⟩])
    [⟨"p1", "9.99", 2, none, none⟩]
    [⟨"p1", "9.99", 2, some ⟨"p1", "T", 1, 2, 3⟩, some "root/p1.jpg"⟩] rfl

/-! ### C9 -/

theorem fill_details_idempotent_aux (image_root : String)
    (product_map : String → Option Product) (details details' : List OrderDetail)
    (h : fill_details image_root product_map details = .ok details') :
    fill_details image_root product_map details' = .ok details' := by
  induction details generalizing details' with
  | nil =>
    simp [fill_details] at h
    subst h
    rfl
  | cons item rest ih =>
    simp only [fill_details] at h
    cases hpm : product_map item.product_id with
    | none => rw [hpm] at h; exact Except.noConfusion h
    | some prod =>
      rw [hpm] at h
      cases hrest : fill_details image_root product_map rest with
      | error e => rw [hrest] at h; exact Except.noConfusion h
      | ok rest' =>
        rw [hrest] at h
        injection h with h'
        subst h'
        simp only [fill_details]
        simp [hpm, ih rest' hrest]

/-- C9: line-item enrichment is idempotent — if one pass of
`_fill_order_details_with_product` with a given product map and image root
succeeds, a second pass with the same map and root returns exactly the
same order (the `product` and `image` fields are overwritten with equal
values). -/
theorem enrichment_idempotent (image_root : String)
    (product_map : String → Option Product) (order order' : Order)
    (h : fill_order_details_with_product image_root product_map order = .ok order') :
    fill_order_details_with_product image_root product_map order' = .ok order' := by
  simp only [fill_order_details_with_product] at h ⊢
  cases hd : fill_details image_root product_map order.order_details with
  | error e => rw [hd] at h; exact Except.noConfusion h
  | ok details' =>
    rw [hd] at h
    injection h with h'
    subst h'
    simp [fill_details_idempotent_aux _ _ _ _ hd]

/-- Witness for C9: re-enriching an already enriched order returns it
unchanged. -/
theorem enrichment_idempotent_witness :
    fill_order_details_with_product "root" (buildProductMap [⟨"a", "T", 1, 2, 3⟩])
        ⟨1, [⟨"a", "9.99", 2, some ⟨"a", "T", 1, 2, 3⟩, some "root/a.jpg"⟩]⟩ =
      .ok ⟨1, [⟨"a", "9.99", 2, some ⟨"a", "T", 1, 2, 3⟩, some "root/a.jpg"⟩]⟩ :=
  enrichment_idempotent "root" (buildProductMap [⟨"a", "T", 1, 2, 3⟩])
    ⟨1, [⟨"a", "9.99", 2, none, none⟩]⟩
    ⟨1, [⟨"a", "9.99", 2, some ⟨"a", "T", 1, 2, 3⟩, some "root/a.jpg"⟩]⟩ rfl

/-! ### C8 -/

/-- C8: for the create-product and create-order entrypoints, a body that
is not parseable JSON fails with `BadRequest` (the caught `ValueError`),
while a body that is valid JSON but violates the schema fails with the
distinct `ValidationError`; both error kinds are listed in the
entrypoints' `expected_exceptions`, so neither is an unhandled server
fault. -/
theorem payload_error_taxonomy
    (raw : String) (v w : Json)
    (products_list : List String → List Product)
    (orders_create : List OrderDetail → Order)
    (hv : productSchema_loads (.wellFormed v) = .error .validationError)
    (hw : createOrderSchema_loads (.wellFormed w) = .error .validationError) :
    (create_product (.malformed raw)).1 = .error (.badRequest "Invalid json") ∧
    (create_product (.wellFormed v)).1 = .error .validationError ∧
    create_order products_list orders_create (.malformed raw) =
      .error (.badRequest "Invalid json") ∧
    create_order products_list orders_create (.wellFormed w) =
      .error .validationError ∧
    (∀ msg, (GatewayError.badRequest msg) ≠ .validationError) ∧
    create_product_expected_exceptions (.badRequest "Invalid json") = true ∧
    create_product_expected_exceptions .validationError = true ∧
    create_order_expected_exceptions (.badRequest "Invalid json") = true ∧
    create_order_expected_exceptions .validationError = true := by
  refine ⟨rfl, ?_, rfl, ?_, fun msg h => GatewayError.noConfusion h, rfl, rfl, rfl, rfl⟩
  · simp [create_product, hv]
  · simp [create_order, hw]

/-- Witness for C8: a malformed body versus a JSON object missing a
required field (`"id"` for products, `"order_details"` for orders) yield
the two distinct client-error kinds. -/
theorem payload_error_taxonomy_witness :
    (create_product (.malformed "not json")).1 =
      .error (.badRequest "Invalid json") ∧
    (create_product (.wellFormed (.obj [("title", .str "T")]))).1 =
      .error .validationError ∧
    create_order (fun _ => []) (fun details => ⟨7, details⟩) (.malformed "not json") =
      .error (.badRequest "Invalid json") ∧
    create_order (fun _ => []) (fun details => ⟨7, details⟩)
        (.wellFormed (.obj [("title", .str "T")])) =
      .error .validationError ∧
    (∀ msg, (GatewayError.badRequest msg) ≠ .validationError) ∧
    create_product_expected_exceptions (.badRequest "Invalid json") = true ∧
    create_product_expected_exceptions .validationError = true ∧
    create_order_expected_exceptions (.badRequest "Invalid json") = true ∧
    create_order_expected_exceptions .validationError = true :=
  payload_error_taxonomy "not json" (.obj [("title", .str "T")])
    (.obj [("title", .str "T")]) (fun _ => []) (fun details => ⟨7, details⟩) rfl rfl

/-! ### C10 -/

/-- C10: the delete-product response is the full `ProductSchema`
serialization of the product returned by the catalog's `delete` call — the
same serialized shape as the get-product response (identical when the two
calls return the same product), carrying all product fields rather than an
empty or acknowledgement-only body. -/
theorem remove_product_returns_serialized_product
    (products_delete products_get : String → Product) (product_id : String)
    (h : products_get product_id = products_delete product_id) :
    remove_product products_delete product_id =
      productSchema_dumps (products_delete product_id) ∧
    remove_product products_delete product_id = get_product products_get product_id ∧
    jsonObjKeys (remove_product products_delete product_id) =
      ["id", "title", "passenger_capacity", "maximum_speed", "in_stock"] := by
  refine ⟨rfl, ?_, rfl⟩
  simp [remove_product, get_product, h]

/-- Witness for C10: deleting a concrete product returns its full
serialization, equal to the get-product response for the same product. -/
theorem remove_product_returns_serialized_product_witness :
    remove_product (fun _ => ⟨"p1", "T", 4, 120, 10⟩) "p1" =
      productSchema_dumps ⟨"p1", "T", 4, 120, 10⟩ ∧
    remove_product (fun _ => ⟨"p1", "T", 4, 120, 10⟩) "p1" =
      get_product (fun _ => ⟨"p1", "T", 4, 120, 10⟩) "p1" ∧
    jsonObjKeys (remove_product (fun _ => ⟨"p1", "T", 4, 120, 10⟩) "p1") =
      ["id", "title", "passenger_capacity", "maximum_speed", "in_stock"] :=
  remove_product_returns_serialized_product (fun _ => ⟨"p1", "T", 4, 120, 10⟩)
    (fun _ => ⟨"p1", "T", 4, 120, 10⟩) "p1" rfl

end Gateway
